import Mathlib

/-!
Shallow embedding of the LedgerPro backend (Django/DRF) general-ledger core:
models.py (Account / Transaction / JournalEntry / PayRun), serializers.py
(TransactionSerializer, InvoiceSerializer, PayRunSerializer),
account_utils.py (get_or_create_default_account),
payroll_service.py (calculate_gross_pay, process_pay_run),
reconciliation_service.py (rule engine).

Monetary amounts are `Decimal` values with exactly two fractional digits in
the source (DecimalField(decimal_places=2)); we embed them as integer cents
(`Int`) wherever the source only ever holds 2-decimal values, and as `ℚ`
where the source computes unquantized intermediate products
(invoice `quantity * unit_price`).  Python `Decimal.quantize(Decimal('0.01'))`
uses ROUND_HALF_EVEN; `roundHalfEven` below embeds it.
Dates are abstracted as naturals ordered like calendar dates.
-/

namespace LedgerPro

/-- Banker's rounding of a rational to the nearest integer, ties to even:
the embedding of Python `Decimal.quantize(Decimal('0.01'), ROUND_HALF_EVEN)`
applied to a value expressed in cents. -/
def roundHalfEven (q : ℚ) : ℤ :=
  let f : ℤ := ⌊q⌋
  let r : ℚ := q - f
  if r < 1/2 then f
  else if r > 1/2 then f + 1
  else if f % 2 = 0 then f else f + 1

/-! ## Ledger core: account types, balances, period activity (models.py) -/

/-- The `Account.type` choices (models.py lines 73-81). -/
inductive AccountType where
  | asset | liability | equity | revenue | expense
deriving DecidableEq, Repr

/-- One `JournalEntry` row as seen from an account's `journal_entries`
related manager: the owning transaction's date plus the two 2-decimal
amounts, in cents (models.py lines 147-153). -/
structure AcctEntry where
  txDate : Nat
  debit : Int
  credit : Int
deriving DecidableEq, Repr

/-- Total Σ `debit_amount` over a list of entries. -/
def sumDebits (es : List AcctEntry) : Int :=
  (es.map (·.debit)).sum

/-- Total Σ `credit_amount` over a list of entries. -/
def sumCredits (es : List AcctEntry) : Int :=
  (es.map (·.credit)).sum

/-- The normal-side signed total for an account type:
debit-normal (ASSET, EXPENSE) gives Σdebits − Σcredits, credit-normal
gives Σcredits − Σdebits. -/
def normalSigned (t : AccountType) (es : List AcctEntry) : Int :=
  if t = .asset ∨ t = .expense then sumDebits es - sumCredits es
  else sumCredits es - sumDebits es

/-- The `Account.get_balance(date_to=None)` (models.py lines 94-104):
filter `transaction__date__lte=date_to` when `date_to` is truthy, sum
debits and credits, and sign by `type in [ASSET, EXPENSE]`. -/
def getBalance (t : AccountType) (es : List AcctEntry) (dateTo : Option Nat) : Int :=
  let filtered := es.filter fun e =>
    match dateTo with
    | none => true
    | some d => e.txDate ≤ d
  let debitSum := sumDebits filtered
  let creditSum := sumCredits filtered
  if t = .asset ∨ t = .expense then debitSum - creditSum
  else creditSum - debitSum

/-- The `Account.get_period_activity(date_from, date_to)` (models.py lines
105-122): `ValueError` when either bound is falsy (None), else sum entries
with transaction date in `[date_from, date_to]` and sign per the five-way
type branch of the source. -/
def getPeriodActivity (t : AccountType) (es : List AcctEntry)
    (dateFrom dateTo : Option Nat) : Except String Int :=
  match dateFrom, dateTo with
  | some f, some to_ =>
    let inPeriod := es.filter fun e => f ≤ e.txDate ∧ e.txDate ≤ to_
    let debitsInPeriod := sumDebits inPeriod
    let creditsInPeriod := sumCredits inPeriod
    if t = .revenue then .ok (creditsInPeriod - debitsInPeriod)
    else if t = .expense then .ok (debitsInPeriod - creditsInPeriod)
    else if t = .asset then .ok (debitsInPeriod - creditsInPeriod)
    else if t = .liability ∨ t = .equity then .ok (creditsInPeriod - debitsInPeriod)
    else .ok 0
  | _, _ => .error "Both date_from and date_to are required for period activity."

/-! ## Payroll gross pay (payroll_service.py lines 15-28) -/

/-- The `Employee.pay_type` choices (models.py lines 340-345). -/
inductive PayType where
  | salary | hourly
deriving DecidableEq, Repr

/-- The `calculate_gross_pay(employee, pay_period_start_date,
pay_period_end_date, hours_worked=None)` (payroll_service.py lines 15-28).
`payRate` is the 2-decimal `Employee.pay_rate` in cents; `hours` is the
2-decimal `hours_worked` in hundredths of an hour, `none` when omitted.
Returns the quantized gross pay in cents paired with a flag that is `true`
exactly when the source logs the missing-hours warning; the function never
raises (mirrors the log-and-default-to-zero branch). -/
def calculateGrossPay (payType : PayType) (payRate : Int)
    (_payPeriodStart _payPeriodEnd : Nat) (hours : Option Int) : Int × Bool :=
  match payType with
  | .salary =>
    -- pay_rate / Decimal('26'), quantized to 2 decimals
    (roundHalfEven ((payRate : ℚ) / 26), false)
  | .hourly =>
    match hours with
    | none =>
      -- logger.warning(...); hours_worked = Decimal('0.00')
      (roundHalfEven ((payRate : ℚ) * 0 / 100), true)
    | some h =>
      (roundHalfEven ((payRate : ℚ) * h / 100), false)

/-! ## API transaction posting (serializers.py TransactionSerializer) -/

/-- Error kinds raised inside `TransactionSerializer.create`:
`drf` is `rest_framework.serializers.ValidationError` and `django` is
`django.core.exceptions.ValidationError` (raised by `JournalEntry.clean`).
Only `drf` is caught by the `except serializers.ValidationError` handler. -/
inductive ApiError where
  | drf (msg : String)
  | django (msg : String)
deriving DecidableEq, Repr

/-- One element of the posted `journal_entries_set` payload: the referenced
account id and the 2-decimal amounts in cents (defaults `0.00`). -/
structure JLine where
  account : Nat
  debit : Int := 0
  credit : Int := 0
deriving DecidableEq, Repr

/-- The `JournalEntry.clean` (models.py lines 160-167) as a predicate: `true`
iff none of its three `ValidationError`s fire (no negative side, not both
positive, not both zero). -/
def journalEntryCleanOk (debit credit : Int) : Bool :=
  !(debit < 0 || credit < 0) && !(debit > 0 && credit > 0)
    && !(debit == 0 && credit == 0)

/-- Database rows left behind by one call of `TransactionSerializer.create`
(plus the error surfaced to the caller, `none` on success).  The serializer
runs with no ambient atomic block (no `ATOMIC_REQUESTS`, no decorator), so
rows created before an uncaught exception stay persisted. -/
structure PostOutcome where
  error : Option ApiError
  txPersisted : Bool
  persistedLines : List JLine
deriving DecidableEq, Repr

/-- Total Σ debit over posted lines, in cents. -/
def linesDebits (ls : List JLine) : Int := (ls.map (·.debit)).sum

/-- Total Σ credit over posted lines, in cents. -/
def linesCredits (ls : List JLine) : Int := (ls.map (·.credit)).sum

/-- The entry-creation loop of `TransactionSerializer.create`
(serializers.py lines 110-122): for each line, the cross-organization check
raises DRF `ValidationError` (caught below: `transaction.delete()` cascades
away every row); `JournalEntry.objects.create` runs `clean`, whose Django
`ValidationError` is NOT caught, so the transaction row and the lines
created so far stay persisted; after the loop an unbalanced total raises a
caught DRF error.  `accountOrg` maps an account id to its organization. -/
def createEntriesLoop (accountOrg : Nat → Option Nat) (org : Nat) :
    List JLine → List JLine → PostOutcome
  | [], done =>
    if linesDebits done ≠ linesCredits done then
      -- raise serializers.ValidationError('Debits must equal Credits.')
      -- caught: transaction.delete(); raise
      ⟨some (.drf "Debits must equal Credits."), false, []⟩
    else
      ⟨none, true, done⟩
  | l :: ls, done =>
    if accountOrg l.account ≠ some org then
      -- raise serializers.ValidationError(f'Account ... invalid for org.')
      ⟨some (.drf "Account invalid for org."), false, []⟩
    else if !journalEntryCleanOk l.debit l.credit then
      -- JournalEntry.save -> clean -> django ValidationError, uncaught
      ⟨some (.django "journal entry clean failed"), true, done⟩
    else
      createEntriesLoop accountOrg org ls (done ++ [l])

/-- The `TransactionSerializer` posting path: `validate_journal_entries_set`
(serializers.py lines 98-101) rejects fewer than two lines before anything
is written, then `create` (lines 103-129) runs the loop above. -/
def transactionSerializerCreate (accountOrg : Nat → Option Nat) (org : Nat)
    (lines : List JLine) : PostOutcome :=
  if lines.length < 2 then
    ⟨some (.drf "A transaction must have at least two journal entries."), false, []⟩
  else
    createEntriesLoop accountOrg org lines []

/-! ## Account resolver (account_utils.py get_or_create_default_account) -/

/-- One `Account` row.  `id` stands for the primary key; `.first()` on an
unordered queryset returns the row with the smallest pk. -/
structure AccountRec where
  id : Nat
  org : Nat
  name : String
  type : AccountType
  active : Bool
  description : String
deriving DecidableEq, Repr

/-- The accounts table plus the id the next `create` will assign. -/
structure AcctState where
  accounts : List AccountRec
  nextId : Nat
deriving DecidableEq, Repr

/-- Case-insensitive substring test: the embedding of the queryset lookup
`name__icontains=substring`. -/
def icontains (s pat : String) : Bool :=
  pat.toLower.isEmpty || ((s.toLower.splitOn pat.toLower).length > 1)

/-- Filter for the exact-name lookup
`Account.objects.get(organization=…, type=…, name=default_name, is_active=True)`. -/
def exactNameMatches (s : AcctState) (org : Nat) (t : AccountType)
    (defaultName : String) : List AccountRec :=
  s.accounts.filter fun a =>
    a.org = org ∧ a.type = t ∧ a.name = defaultName ∧ a.active = true

/-- Filter for the substring lookup
`Account.objects.get(organization=…, type=…, name__icontains=substr, is_active=True)`. -/
def substrMatches (s : AcctState) (org : Nat) (t : AccountType)
    (substr : String) : List AccountRec :=
  s.accounts.filter fun a =>
    a.org = org ∧ a.type = t ∧ icontains a.name substr ∧ a.active = true

/-- The `queryset.first()` with no ordering declared on `Account`: Django
orders by primary key, so the minimal id wins. -/
def firstByPk (a : AccountRec) (rest : List AccountRec) : AccountRec :=
  rest.foldl (fun best b => if b.id < best.id then b else best) a

/-- The `get_or_create_default_account(organization, account_type,
account_name_substring, default_name, default_description_suffix)`
(account_utils.py lines 8-47).  `orgName` is `organization.name` (used in
the auto-created description).  `Account.objects.create` hits the
`unique_together ('organization', 'name', 'type')` constraint, so a
pre-existing row with that triple (active or not) makes it raise
`IntegrityError`, which the source does not catch. -/
def getOrCreateDefaultAccount (s : AcctState) (org : Nat) (orgName : String)
    (accountType : AccountType) (accountNameSubstring : String)
    (defaultName : String) (defaultDescriptionSuffix : String) :
    Except String (AccountRec × AcctState) :=
  match exactNameMatches s org accountType defaultName with
  | [a] => .ok (a, s)
  | [] =>
    match substrMatches s org accountType accountNameSubstring with
    | [a] =>
      -- logger.info('Found account ... using substring ...')
      .ok (a, s)
    | [] =>
      if s.accounts.any fun a =>
          a.org = org ∧ a.name = defaultName ∧ a.type = accountType then
        .error "IntegrityError: UNIQUE constraint (organization, name, type)"
      else
        let newAccount : AccountRec :=
          { id := s.nextId, org := org, name := defaultName,
            type := accountType, active := true,
            description :=
              s!"Default {defaultDescriptionSuffix} for {orgName}. Auto-created." }
        .ok (newAccount, ⟨s.accounts ++ [newAccount], s.nextId + 1⟩)
    | a :: rest =>
      -- MultipleObjectsReturned: warn and take .filter(...).first()
      .ok (firstByPk a rest, s)
  | a :: rest =>
    -- MultipleObjectsReturned on the exact lookup: .filter(...).first()
    .ok (firstByPk a rest, s)

/-! ## Invoice GL posting (serializers.py InvoiceSerializer) -/

/-- The `Invoice.status` choices (models.py lines 196-202). -/
inductive InvStatus where
  | draft | sent | paid | void
deriving DecidableEq, Repr

/-- One element of the `items` payload: 2-decimal quantity, unit price and
per-line tax total, as exact rationals in currency units (the source keeps
the unquantized Decimal product `quantity * unit_price`). -/
structure InvItemInput where
  quantity : ℚ
  unitPrice : ℚ
  taxAmount : ℚ := 0
deriving DecidableEq, Repr

/-- The `JournalEntry.clean` on rational (currency-unit) amounts. -/
def journalEntryCleanOkQ (debit credit : ℚ) : Bool :=
  !(debit < 0 || credit < 0) && !(debit > 0 && credit > 0)
    && !(debit == 0 && credit == 0)

/-- The GL account a posting pipeline resolves through
`get_or_create_default_account`; identified here by its logical role
(the resolver itself is embedded above as `getOrCreateDefaultAccount`). -/
inductive DefaultAccountRole where
  | accountsReceivable | salesRevenue | salesTaxPayable
  | payrollExpense | wagesPayable | deductionsPayable
deriving DecidableEq, Repr

/-- One generated GL journal entry, amounts in currency units. -/
structure GlEntry where
  account : DefaultAccountRole
  debit : ℚ := 0
  credit : ℚ := 0
deriving DecidableEq, Repr

/-- The generated GL `Transaction` with its `journal_entries_set`. -/
structure GlTx where
  date : Nat
  entries : List GlEntry
deriving DecidableEq, Repr

/-- Total Σ debit over generated GL entries. -/
def glDebits (es : List GlEntry) : ℚ := (es.map (·.debit)).sum

/-- Total Σ credit over generated GL entries. -/
def glCredits (es : List GlEntry) : ℚ := (es.map (·.credit)).sum

/-- Outcome of `InvoiceSerializer._create_invoice_gl_transaction`:
`ok` returns the persisted transaction; `cleanFail` is an uncaught Django
`ValidationError` escaping from `JournalEntry.clean`, leaving the listed
rows persisted; `unbalanced` is the caught mismatch branch that deletes the
just-created transaction and raises a DRF `ValidationError`. -/
inductive GlResult where
  | ok (tx : GlTx)
  | cleanFail (persisted : GlTx) (msg : String)
  | unbalanced
deriving DecidableEq, Repr

/-- The `InvoiceSerializer._create_invoice_gl_transaction(invoice, user)`
(serializers.py lines 188-224): resolve A/R, Sales Revenue and — when
`total_tax > 0` — Sales Tax Payable; create one Transaction dated at the
invoice's `issue_date`; debit A/R for `total_amount`, credit Sales Revenue
for `subtotal`, credit Sales Tax Payable for `total_tax` when positive;
then compare Σdebits with Σcredits exactly and on mismatch delete the
transaction and raise. -/
def createInvoiceGlTransaction (issueDate : Nat)
    (subtotal totalTax totalAmount : ℚ) : GlResult :=
  let e1 : GlEntry := { account := .accountsReceivable, debit := totalAmount }
  if !journalEntryCleanOkQ totalAmount 0 then
    .cleanFail ⟨issueDate, []⟩ "A/R entry failed JournalEntry.clean"
  else
    let e2 : GlEntry := { account := .salesRevenue, credit := subtotal }
    if !journalEntryCleanOkQ 0 subtotal then
      .cleanFail ⟨issueDate, [e1]⟩ "Sales revenue entry failed JournalEntry.clean"
    else
      let entries :=
        if totalTax > 0 then
          [e1, e2, { account := .salesTaxPayable, credit := totalTax }]
        else [e1, e2]
      if glDebits entries ≠ glCredits entries then
        -- gl_transaction.delete(); raise serializers.ValidationError(...)
        .unbalanced
      else
        .ok ⟨issueDate, entries⟩

/-- The persisted `Invoice` row as far as GL posting is concerned. -/
structure InvRec where
  status : InvStatus
  transaction : Option GlTx
  subtotal : ℚ
  totalTax : ℚ
  totalAmount : ℚ
deriving DecidableEq, Repr

/-- Rows left behind by `InvoiceSerializer.create` (serializers.py lines
234-269): the surfaced error, the invoice row (deleted again on a caught
GL failure) and the generated GL rows. -/
structure InvoiceCreateOutcome where
  error : Option ApiError
  invoice : Option InvRec
  glRows : Option GlTx
deriving DecidableEq, Repr

/-- The `InvoiceSerializer.create(validated_data)` for the GL-relevant path:
totals are derived from the items (`subtotal = Σ quantity*unit_price`,
`total_tax = Σ tax_amount`, `total_amount = subtotal + total_tax`), the
invoice and items are persisted, and when the status is SENT the GL helper
runs: a DRF `ValidationError` or any other exception deletes the invoice
and re-raises as DRF.  (The uncaught-`clean` case still leaves the partial
GL rows behind, since only the invoice is deleted.) -/
def invoiceSerializerCreate (items : List InvItemInput) (status : InvStatus)
    (issueDate : Nat) : InvoiceCreateOutcome :=
  let subtotal := (items.map fun i => i.quantity * i.unitPrice).sum
  let totalTax := (items.map (·.taxAmount)).sum
  let totalAmount := subtotal + totalTax
  let invoice : InvRec :=
    { status := status, transaction := none, subtotal := subtotal,
      totalTax := totalTax, totalAmount := totalAmount }
  if status = .sent then
    match createInvoiceGlTransaction issueDate subtotal totalTax totalAmount with
    | .ok gl =>
      ⟨none, some { invoice with transaction := some gl }, some gl⟩
    | .cleanFail leftover msg =>
      -- except Exception: invoice.delete(); raise serializers.ValidationError
      ⟨some (.drf s!"Failed to create GL transaction for invoice: {msg}"),
        none, some leftover⟩
    | .unbalanced =>
      -- except serializers.ValidationError: invoice.delete(); raise
      ⟨some (.drf "Failed to create a balanced GL transaction for the invoice."),
        none, none⟩
  else
    ⟨none, some invoice, none⟩

/-- Persisted state after `InvoiceSerializer.update` (serializers.py lines
271-309) on an existing invoice. -/
structure InvoiceUpdateOutcome where
  error : Option ApiError
  invoice : InvRec
  glRows : Option GlTx
deriving DecidableEq, Repr

/-- The `InvoiceSerializer.update(instance, validated_data)` with replacement
items: totals are recomputed, `instance.save()` persists the new status,
and only for the DRAFT→SENT transition with no existing linked transaction
the GL helper runs — any exception from it is caught by
`except Exception: logger.error(...); pass`, so the update itself succeeds
either way. -/
def invoiceSerializerUpdate (originalStatus newStatus : InvStatus)
    (existingTx : Option GlTx) (items : List InvItemInput)
    (issueDate : Nat) : InvoiceUpdateOutcome :=
  let subtotal := (items.map fun i => i.quantity * i.unitPrice).sum
  let totalTax := (items.map (·.taxAmount)).sum
  let totalAmount := subtotal + totalTax
  let saved : InvRec :=
    { status := newStatus, transaction := existingTx, subtotal := subtotal,
      totalTax := totalTax, totalAmount := totalAmount }
  if originalStatus = .draft ∧ newStatus = .sent ∧ existingTx = none then
    match createInvoiceGlTransaction issueDate subtotal totalTax totalAmount with
    | .ok gl =>
      ⟨none, { saved with transaction := some gl }, some gl⟩
    | .cleanFail leftover _ =>
      -- except Exception as e: logger.error(...); pass
      ⟨none, saved, some leftover⟩
    | .unbalanced =>
      -- helper deleted the transaction; except Exception: pass
      ⟨none, saved, none⟩
  else
    ⟨none, saved, none⟩

/-! ## Reconciliation rule engine (reconciliation_service.py) -/

/-- A Python value flowing through `evaluate_condition`: a string, a
number (`Decimal`/int/float, compared exactly), or `None`.  Numeric string
literals inside rule values are carried as `num` (their already-parsed
form); `str(None)` renders as "None". -/
inductive PyValue where
  | str (s : String)
  | num (q : ℚ)
  | pyNone
deriving DecidableEq, Repr

/-- Python `str(value)` as used by the `contains` operators (only the
string case is ever exercised by the rules in this development; numbers
render via their rational representation). -/
def pyValueStr : PyValue → String
  | .str s => s
  | .num q => toString q
  | .pyNone => "None"

/-- The `evaluate_condition(transaction_value, operator, rule_value)`
(reconciliation_service.py lines 10-47): numeric/numeric pairs compare as
Decimals, a string transaction value coerces the rule value with `str`,
`contains`/`does_not_contain` compare lowercased string forms, the
ordering operators require both sides numeric, and an unknown operator
yields `False`. -/
def evaluateCondition (transactionValue : PyValue) (operator : String)
    (ruleValue : PyValue) : Bool :=
  let (tv, rv) :=
    match transactionValue, ruleValue with
    | .num a, .num b => (PyValue.num a, PyValue.num b)
    | .str s, rv => (PyValue.str s, PyValue.str (pyValueStr rv))
    | tv, rv => (tv, rv)
  if operator = "contains" then
    icontains (pyValueStr tv) (pyValueStr rv)
  else if operator = "does_not_contain" then
    !icontains (pyValueStr tv) (pyValueStr rv)
  else if operator = "equals" then
    tv == rv
  else if operator = "not_equals" then
    tv != rv
  else if operator = "greater_than" then
    match tv, rv with
    | .num a, .num b => a > b
    | _, _ => false
  else if operator = "less_than" then
    match tv, rv with
    | .num a, .num b => a < b
    | _, _ => false
  else
    false

/-- One condition object from a rule's `conditions` JSON list; a missing
(or empty, i.e. falsy) field or operator marks the condition malformed. -/
structure RuleCond where
  field : Option String
  operator : Option String
  value : PyValue
deriving DecidableEq, Repr

/-- One action object from a rule's `actions` JSON list. -/
structure RuleAction where
  actionType : Option String
  accountId : Option Nat
deriving DecidableEq, Repr

/-- One `ReconciliationRule` row (models.py lines 313-327). -/
structure RuleRec where
  id : Nat
  org : Nat
  name : String
  priority : Int
  active : Bool
  conditions : List RuleCond
  actions : List RuleAction
deriving DecidableEq, Repr

/-- The `StagedBankTransaction.reconciliation_status` choices. -/
inductive ReconStatus where
  | unmatched | matched | ruleApplied | createdTransaction
deriving DecidableEq, Repr

/-- One `StagedBankTransaction` row, restricted to the attributes the rule
engine reads. -/
structure StagedTx where
  id : Nat
  org : Nat
  name : String
  amount : ℚ
  merchantName : Option String
  reconStatus : ReconStatus
  appliedRule : Option Nat
deriving DecidableEq, Repr

/-- The `hasattr`/`getattr` on a staged transaction for the modelled
attributes; any other field name has no attribute. -/
def stagedGetField (tx : StagedTx) (f : String) : Option PyValue :=
  if f = "name" then some (.str tx.name)
  else if f = "amount" then some (.num tx.amount)
  else if f = "merchant_name" then
    some (match tx.merchantName with | some s => .str s | none => .pyNone)
  else none

/-- Python truthiness test for the optional strings in a condition. -/
def falsyStr : Option String → Bool
  | none => true
  | some s => s.isEmpty

/-- The condition-list walk inside `check_rule_conditions`: malformed
conditions are skipped, an unknown field fails the whole rule, and every
well-formed condition must evaluate to true. -/
def checkCondList (tx : StagedTx) : List RuleCond → Bool
  | [] => true
  | c :: cs =>
    if falsyStr c.field || falsyStr c.operator then
      checkCondList tx cs
    else
      match stagedGetField tx (c.field.getD "") with
      | none => false
      | some tv =>
        if evaluateCondition tv (c.operator.getD "") c.value then
          checkCondList tx cs
        else false

/-- The `check_rule_conditions(staged_tx, rule)` (reconciliation_service.py
lines 50-73): an empty (falsy) condition list never matches. -/
def checkRuleConditions (tx : StagedTx) (rule : RuleRec) : Bool :=
  if rule.conditions.isEmpty then false
  else checkCondList tx rule.conditions

/-- The `apply_rule_actions(staged_tx, rule, user)` (reconciliation_service.py
lines 76-114): each `categorize` action whose account id resolves within
the transaction's organization marks the transaction RULE_APPLIED and
records the applied rule; unknown accounts and other action types are
skipped. -/
def applyRuleActions (accounts : List AccountRec) (tx : StagedTx)
    (rule : RuleRec) : StagedTx :=
  rule.actions.foldl
    (fun t act =>
      if act.actionType = some "categorize" then
        match accounts.find? fun a => some a.id = act.accountId ∧ a.org = t.org with
        | some _ =>
          { t with reconStatus := .ruleApplied, appliedRule := some rule.id }
        | none => t
      else t)
    tx

/-- Stable insertion by `priority` only: the embedding of
`.order_by('priority')`, which replaces the model's default ordering, so
equal priorities keep the database's underlying (insertion) order. -/
def insertByPriority (r : RuleRec) : List RuleRec → List RuleRec
  | [] => [r]
  | b :: bs =>
    if r.priority ≤ b.priority then r :: b :: bs
    else b :: insertByPriority r bs

/-- Stable sort of the rule queryset by ascending `priority`. -/
def sortByPriority : List RuleRec → List RuleRec
  | [] => []
  | r :: rs => insertByPriority r (sortByPriority rs)

/-- Stable insertion by the (priority, name) key — the ordering the
specification text asserts ("by priority ascending, then name"); names
compare lexicographically by their character sequences. -/
def insertByPriorityName (r : RuleRec) : List RuleRec → List RuleRec
  | [] => [r]
  | b :: bs =>
    if r.priority < b.priority ∨
        (r.priority = b.priority ∧
          (r.name.data < b.name.data ∨ r.name = b.name)) then
      r :: b :: bs
    else b :: insertByPriorityName r bs

/-- Sort of the rule queryset by (priority ascending, name) per the
specification's words; compared against `sortByPriority` below. -/
def sortByPriorityName : List RuleRec → List RuleRec
  | [] => []
  | r :: rs => insertByPriorityName r (sortByPriorityName rs)

/-- The inner `for rule in rules: … break` loop of
`run_reconciliation_rules_for_organization`: apply the first rule whose
conditions pass, count 1 for the transaction if any rule applied. -/
def applyFirstMatchingRule (accounts : List AccountRec) (tx : StagedTx) :
    List RuleRec → StagedTx × Nat
  | [] => (tx, 0)
  | r :: rs =>
    if checkRuleConditions tx r then (applyRuleActions accounts tx r, 1)
    else applyFirstMatchingRule accounts tx rs

/-- The reconciliation database: rules, staged transactions and accounts.
The staged-transaction list is kept in the model's default queryset order
(`-date`, `-imported_at`), which is the order the `[:100]` slice samples. -/
structure ReconState where
  rules : List RuleRec
  txs : List StagedTx
  accounts : List AccountRec
deriving Repr

/-- The outer transaction loop with the remaining slice budget: only
UNMATCHED transactions of the organization within the first-100 cap are
evaluated; all others pass through untouched. -/
def runReconLoop (accounts : List AccountRec) (rules : List RuleRec)
    (org : Nat) : List StagedTx → Nat → Nat × List StagedTx
  | [], _ => (0, [])
  | tx :: rest, budget =>
    if tx.org = org ∧ tx.reconStatus = .unmatched ∧ 0 < budget then
      let (tx', c) := applyFirstMatchingRule accounts tx rules
      let (cnt, rest') := runReconLoop accounts rules org rest (budget - 1)
      (c + cnt, tx' :: rest')
    else
      let (cnt, rest') := runReconLoop accounts rules org rest budget
      (cnt, tx :: rest')

/-- The `run_reconciliation_rules_for_organization(organization, user)`
(reconciliation_service.py lines 117-135): active rules of the
organization ordered by `priority`, UNMATCHED transactions capped at 100,
first-match-wins per transaction, returning the applied count and the
resulting staged-transaction table. -/
def runReconciliationRulesForOrganization (s : ReconState) (org : Nat) :
    Nat × List StagedTx :=
  let rules := sortByPriority (s.rules.filter fun r => r.org = org ∧ r.active)
  runReconLoop s.accounts rules org s.txs 100

/-- The run as the specification sentence describes it, differing from the
source only in the rule ordering: "active rules ordered by priority
ascending, then name". -/
def runReconciliationRulesClaimed (s : ReconState) (org : Nat) :
    Nat × List StagedTx :=
  let rules := sortByPriorityName (s.rules.filter fun r => r.org = org ∧ r.active)
  runReconLoop s.accounts rules org s.txs 100

/-- Declarative form of one transaction step: the first matching rule via
`List.find?`, used to restate first-match-wins. -/
def firstMatchStep (accounts : List AccountRec) (rules : List RuleRec)
    (tx : StagedTx) : StagedTx × Nat :=
  match rules.find? fun r => checkRuleConditions tx r with
  | some r => (applyRuleActions accounts tx r, 1)
  | none => (tx, 0)

/-- The transaction walk of the declarative run: each eligible transaction
(UNMATCHED, same organization, within the remaining cap) is transformed by
`firstMatchStep`; the count sums the per-transaction indicators. -/
def runReconDeclLoop (accounts : List AccountRec) (rules : List RuleRec)
    (org : Nat) : List StagedTx → Nat → Nat × List StagedTx
  | [], _ => (0, [])
  | tx :: rest, budget =>
    if tx.org = org ∧ tx.reconStatus = .unmatched ∧ 0 < budget then
      let (tx', c) := firstMatchStep accounts rules tx
      let (cnt, rest') := runReconDeclLoop accounts rules org rest (budget - 1)
      (c + cnt, tx' :: rest')
    else
      let (cnt, rest') := runReconDeclLoop accounts rules org rest budget
      (cnt, tx :: rest')

/-- Declarative form of the whole run: priority-sorted active rules,
100-transaction cap, `List.find?`-style first-match-wins. -/
def runReconDeclarative (s : ReconState) (org : Nat) : Nat × List StagedTx :=
  let rules := sortByPriority (s.rules.filter fun r => r.org = org ∧ r.active)
  runReconDeclLoop s.accounts rules org s.txs 100

/-! ## Pay run processing (payroll_service.py process_pay_run) -/

/-- The `PayRun.status` choices (models.py lines 367-376). -/
inductive PayRunStatus where
  | draft | processing | completed | voided
deriving DecidableEq, Repr

/-- One `Employee` row, restricted to what `process_pay_run` reads. -/
structure EmployeeRec where
  id : Nat
  org : Nat
  active : Bool
  payType : PayType
  payRate : Int
deriving DecidableEq, Repr

/-- One `DeductionType` row. -/
structure DedTypeRec where
  id : Nat
  org : Nat
  active : Bool
  name : String
deriving DecidableEq, Repr

/-- One element of an input row's `manual_deductions` list; the amount is
the already-quantized 2-decimal value in cents. -/
structure DedInput where
  dedTypeId : Option Nat
  amount : Option Int
deriving DecidableEq, Repr

/-- One element of `employee_inputs`: `employee_id` may be missing,
`hours_worked` is the 2-decimal value in hundredths when supplied. -/
structure EmpInput where
  employeeId : Option Nat
  hoursWorked : Option Int
  manualDeductions : List DedInput := []
deriving DecidableEq, Repr

/-- A `Payslip` row for the run.  `net` is assigned by the source only at
the final `payslip.save()`; the NOT NULL column constraint that the
intermediate `update_or_create` insert would actually trip at the database
is not modelled (the row is represented in its in-memory form). -/
structure PayslipRec where
  employee : Nat
  gross : Int
  totalDeductions : Int
  net : Int
  notes : String
deriving DecidableEq, Repr

/-- Exceptions `process_pay_run` can raise.  The whole function runs under
`@db_transaction.atomic`, so an escaping exception rolls every write of the
call back. -/
inductive PyExc where
  | unboundLocalError
  | valueError (msg : String)
  | validationError (msg : String)
deriving DecidableEq, Repr

/-- The `defaults['notes']` expression of the `Payslip.objects.update_or_create`
call (payroll_service.py lines 60-66):
`f'Hours: {hours}' if hours is not None else (payslip.notes if not created else '')`.
Python evaluates call arguments before the call, so when `hours` is `None`
the else-branch reads the function-local variables `payslip` and `created`:
on the first evaluation they are unbound (`UnboundLocalError`); afterwards
they still hold the previous loop iteration's payslip and created flag,
which `locals` carries here. -/
def payslipNotesDefault (hours : Option Int)
    (locals : Option (PayslipRec × Bool)) : Except PyExc String :=
  match hours with
  | some h => .ok s!"Hours: {h}"
  | none =>
    match locals with
    | none => .error .unboundLocalError
    | some (payslip, created) => .ok (if !created then payslip.notes else "")

/-- The payroll database `process_pay_run` touches: employees, deduction
types, and the pay run's existing payslips (non-empty when reprocessing). -/
structure PayrollState where
  employees : List EmployeeRec
  dedTypes : List DedTypeRec
  payslips : List PayslipRec := []
deriving Repr

/-- The `PayRun` passed in (the fields the service reads). -/
structure PayRunRec where
  org : Nat
  periodStart : Nat
  periodEnd : Nat
  paymentDate : Nat
  status : PayRunStatus
deriving DecidableEq, Repr

/-- The `Employee.objects.get(id=…, organization=…, is_active=True)` for one
input row, `none` when the row is skipped (missing id or DoesNotExist). -/
def resolveEmployee (employees : List EmployeeRec) (org : Nat)
    (i : EmpInput) : Option EmployeeRec :=
  match i.employeeId with
  | none => none
  | some eid => employees.find? fun e => e.id = eid ∧ e.org = org ∧ e.active

/-- The manual-deduction loop for one input row: malformed entries,
unknown/inactive deduction types and negative amounts are skipped with a
warning; the rest sum into the payslip's total (and into the run-wide
aggregate, which only its total is needed of). -/
def sumRowDeductions (dedTypes : List DedTypeRec) (org : Nat)
    (ds : List DedInput) : Int :=
  ds.foldl
    (fun acc d =>
      match d.dedTypeId, d.amount with
      | some tid, some amt =>
        match dedTypes.find? fun t => t.id = tid ∧ t.org = org ∧ t.active with
        | some _ => if amt < 0 then acc else acc + amt
        | none => acc
      | _, _ => acc)
    0

/-- Replace the payslip for an employee in the run's payslip table, or
append a fresh row. -/
def upsertPayslip (table : List PayslipRec) (p : PayslipRec) : List PayslipRec :=
  if table.any fun q => q.employee = p.employee then
    table.map fun q => if q.employee = p.employee then p else q
  else table ++ [p]

/-- Running totals the employee loop accumulates. -/
structure PayLoopAcc where
  payslipTable : List PayslipRec
  processedForGl : List PayslipRec
  totalGross : Int
  totalNet : Int
  totalDeductions : Int
  locals : Option (PayslipRec × Bool)
deriving Repr

/-- The `for emp_input in employee_inputs` loop of `process_pay_run`
(payroll_service.py lines 45-98): resolve the employee (skip on failure),
compute gross pay, evaluate the `update_or_create` defaults (which may
raise `UnboundLocalError` via `payslipNotesDefault`), upsert the payslip,
apply manual deductions, set `total_deductions`/`net_pay`, and accumulate
the run totals. -/
def payRunEmployeeLoop (st : PayrollState) (payRun : PayRunRec) :
    List EmpInput → PayLoopAcc → Except PyExc PayLoopAcc
  | [], acc => .ok acc
  | i :: rest, acc =>
    match resolveEmployee st.employees payRun.org i with
    | none => payRunEmployeeLoop st payRun rest acc
    | some emp =>
      let hours := i.hoursWorked
      let gross := (calculateGrossPay emp.payType emp.payRate
        payRun.periodStart payRun.periodEnd hours).1
      match payslipNotesDefault hours acc.locals with
      | .error e => .error e
      | .ok notes =>
        let existing := acc.payslipTable.find? fun p => p.employee = emp.id
        let (payslip0, created) :=
          match existing with
          | some p => ({ p with gross := gross, notes := notes }, false)
          | none =>
            ({ employee := emp.id, gross := gross, totalDeductions := 0,
               net := 0, notes := notes }, true)
        -- if not created: payslip.deductions_applied.all().delete()
        let dedSum := sumRowDeductions st.dedTypes payRun.org i.manualDeductions
        let payslip1 :=
          { payslip0 with totalDeductions := dedSum, net := gross - dedSum }
        payRunEmployeeLoop st payRun rest
          { payslipTable := upsertPayslip acc.payslipTable payslip1,
            processedForGl := acc.processedForGl ++ [payslip1],
            totalGross := acc.totalGross + gross,
            totalNet := acc.totalNet + (gross - dedSum),
            totalDeductions := acc.totalDeductions + dedSum,
            locals := some (payslip1, created) }

/-- The in-memory `PayRun` object `process_pay_run` returns on success.
`glTransactionAttr` is the transient Python attribute `pay_run.gl_transaction`
assigned at line 138 — the `PayRun` model declares no such field, so the
final `pay_run.save()` persists only `status`, `processed_by` and
`processed_at`. -/
structure ProcessedPayRun where
  status : PayRunStatus
  processedRecorded : Bool
  glTransactionAttr : Option GlTx
  payslips : List PayslipRec
deriving DecidableEq, Repr

/-- The `process_pay_run(pay_run, employee_inputs, user)` (payroll_service.py
lines 31-145): status precondition, the employee loop, the
no-payslips abort, and the GL tail (Payroll Expense debit Σgross, Wages
Payable credit Σnet, Deductions Payable credit Σdeductions when positive,
then the 0.005-tolerance balance check).  Every raised exception rolls the
atomic block back, so errors leave the database untouched. -/
def processPayRun (st : PayrollState) (payRun : PayRunRec)
    (inputs : List EmpInput) : Except PyExc ProcessedPayRun :=
  if ¬(payRun.status = .draft ∨ payRun.status = .processing) then
    .error (.valueError "PayRun must be in DRAFT or PROCESSING status to process.")
  else
    match payRunEmployeeLoop st payRun inputs
      ⟨st.payslips, [], 0, 0, 0, none⟩ with
    | .error e => .error e
    | .ok acc =>
      if acc.processedForGl.isEmpty then
        .error (.valueError "No employee data processed for this pay run.")
      else
        -- GL tail; the three accounts resolve via get_or_create_default_account
        let e1 : GlEntry :=
          { account := .payrollExpense, debit := (acc.totalGross : ℚ) / 100 }
        if !journalEntryCleanOkQ e1.debit 0 then
          .error (.validationError "payroll expense entry failed JournalEntry.clean")
        else
          let e2 : GlEntry :=
            { account := .wagesPayable, credit := (acc.totalNet : ℚ) / 100 }
          if !journalEntryCleanOkQ 0 e2.credit then
            .error (.validationError "wages payable entry failed JournalEntry.clean")
          else
            let entries :=
              if acc.totalDeductions > 0 then
                [e1, e2, { account := .deductionsPayable,
                           credit := (acc.totalDeductions : ℚ) / 100 }]
              else [e1, e2]
            if |glDebits entries - glCredits entries| > 5/1000 then
              .error (.valueError "Failed to create a balanced GL transaction for the pay run.")
            else
              .ok { status := .completed, processedRecorded := true,
                    glTransactionAttr := some ⟨payRun.paymentDate, entries⟩,
                    payslips := acc.payslipTable }

/-! ## PayRun persistence schema (models.py lines 365-393, serializers.py
PayRunSerializer) -/

/-- The field names the `PayRun` Django model declares (models.py lines
365-393) — the set of columns `pay_run.save()` can persist. -/
def payRunModelFields : List String :=
  ["id", "organization", "pay_period_start_date", "pay_period_end_date",
   "payment_date", "status", "notes", "created_at", "processed_by",
   "processed_at"]

/-- The field names `PayRunSerializer.Meta.fields` exposes (serializers.py
lines 438-447). -/
def payRunSerializerFields : List String :=
  ["id", "organization", "pay_period_start_date", "pay_period_end_date",
   "payment_date", "status", "notes", "created_at", "processed_by",
   "processed_at", "payslips", "gl_transaction",
   "employee_inputs_for_processing"]

/-- The attribute names `process_pay_run` assigns on the pay run right
before its final `save()` (payroll_service.py lines 138-141). -/
def processPayRunSuccessAssigns : List String :=
  ["gl_transaction", "status", "processed_by", "processed_at"]

/-! ## Theorems -/

/-- The `JournalEntry.clean` passes exactly on the valid line shapes. -/
theorem journalEntryCleanOk_iff (d c : Int) :
    journalEntryCleanOk d c = true ↔
      0 ≤ d ∧ 0 ≤ c ∧ ¬(0 < d ∧ 0 < c) ∧ ¬(d = 0 ∧ c = 0) := by
  simp only [journalEntryCleanOk, Bool.and_eq_true, Bool.not_eq_true',
    Bool.or_eq_false_iff, Bool.and_eq_false_iff, decide_eq_false_iff_not,
    not_lt, beq_eq_false_iff_ne, ne_eq]
  omega

/-- C9: `calculate_gross_pay` divides the annual `pay_rate` by the fixed
26 pay periods for SALARY employees (quantized to 2 decimals, unaffected
by the pay-period dates and by any supplied hours — 52000.00 yields
2000.00), multiplies `pay_rate` by `hours_worked` for HOURLY employees
(25.00 × 80 yields 2000.00), and for an HOURLY employee with hours
omitted defaults the hours to 0 and flags the logged warning instead of
raising (the function is total). -/
theorem calculate_gross_pay_spec (payRate h : Int) (s1 e1 s2 e2 : Nat)
    (oh : Option Int) :
    calculateGrossPay .salary payRate s1 e1 oh =
      (roundHalfEven ((payRate : ℚ) / 26), false)
    ∧ calculateGrossPay .salary payRate s1 e1 oh =
        calculateGrossPay .salary payRate s2 e2 oh
    ∧ calculateGrossPay .hourly payRate s1 e1 (some h) =
        (roundHalfEven ((payRate : ℚ) * h / 100), false)
    ∧ calculateGrossPay .hourly payRate s1 e1 none = (0, true)
    ∧ calculateGrossPay .salary 5200000 s1 e1 oh = (200000, false)
    ∧ calculateGrossPay .hourly 2500 s1 e1 (some 8000) = (200000, false) := by
  refine ⟨rfl, rfl, rfl, ?_, ?_, ?_⟩
  · show (roundHalfEven ((payRate : ℚ) * 0 / 100), true) = (0, true)
    norm_num [roundHalfEven]
  · show (roundHalfEven ((5200000 : ℚ) / 26), false) = (200000, false)
    norm_num [roundHalfEven]
  · show (roundHalfEven ((2500 : ℚ) * 8000 / 100), false) = (200000, false)
    norm_num [roundHalfEven]

/-- C3: `get_balance` returns Σdebits − Σcredits for debit-normal account
types (ASSET, EXPENSE) and Σcredits − Σdebits otherwise, over exactly the
entries dated ≤ the as-of date (all entries when it is omitted); and
`get_period_activity` errors whenever either range bound is missing,
otherwise returning the same normal-side signed convention over the
entries dated within `[dateFrom, dateTo]`. -/
theorem get_balance_and_period_activity_spec (t : AccountType)
    (es : List AcctEntry) (asOf dateFrom dateTo : Option Nat) :
    getBalance t es asOf =
      normalSigned t (es.filter fun e =>
        match asOf with
        | none => true
        | some d => e.txDate ≤ d)
    ∧ getPeriodActivity t es dateFrom dateTo =
        (match dateFrom, dateTo with
         | some f, some to_ =>
           .ok (normalSigned t (es.filter fun e => f ≤ e.txDate ∧ e.txDate ≤ to_))
         | _, _ =>
           .error "Both date_from and date_to are required for period activity.") := by
  constructor
  · rfl
  · cases dateFrom with
    | none => rfl
    | some f =>
      cases dateTo with
      | none => rfl
      | some to_ =>
        cases t <;> simp [getPeriodActivity, normalSigned]

/-- C6: `process_pay_run` assigns `pay_run.gl_transaction` before the
final save and `PayRunSerializer` exposes a `gl_transaction` field, but
the `PayRun` model declares no `gl_transaction` field, so the persisted
row cannot carry the link (while `status`, `processed_by` and
`processed_at` are real columns and do persist). -/
theorem payrun_gl_transaction_not_a_model_field :
    "gl_transaction" ∈ processPayRunSuccessAssigns
    ∧ "gl_transaction" ∈ payRunSerializerFields
    ∧ "gl_transaction" ∉ payRunModelFields
    ∧ "status" ∈ payRunModelFields
    ∧ "processed_by" ∈ payRunModelFields
    ∧ "processed_at" ∈ payRunModelFields := by
  refine ⟨?_, ?_, ?_, ?_, ?_, ?_⟩ <;> decide

/-- When every pending line passes `JournalEntry.clean` and references an
account of the posting organization, the creation loop reduces to the
final balance check: an unbalanced total deletes everything, a balanced
one persists all lines. -/
theorem createEntriesLoop_valid (accountOrg : Nat → Option Nat) (org : Nat) :
    ∀ (pending done : List JLine),
      (∀ l ∈ pending, journalEntryCleanOk l.debit l.credit = true) →
      (∀ l ∈ pending, accountOrg l.account = some org) →
      createEntriesLoop accountOrg org pending done =
        if linesDebits (done ++ pending) ≠ linesCredits (done ++ pending) then
          ⟨some (.drf "Debits must equal Credits."), false, []⟩
        else ⟨none, true, done ++ pending⟩ := by
  intro pending
  induction pending with
  | nil => intro done _ _; simp [createEntriesLoop]
  | cons l ls ih =>
    intro done hclean horg
    have hl : accountOrg l.account = some org := horg l (by simp)
    have hc : journalEntryCleanOk l.debit l.credit = true := hclean l (by simp)
    simp only [createEntriesLoop, hl, hc]
    rw [if_neg (by simp)]
    simp only [Bool.not_true, Bool.false_eq_true, if_false]
    rw [ih (done ++ [l]) (fun x hx => hclean x (by simp [hx]))
      (fun x hx => horg x (by simp [hx]))]
    simp [List.append_assoc]

/-- For integer cents, being within the 0.005 currency-unit tolerance is
the same as exact equality. -/
theorem cents_within_tolerance_iff (a b : Int) :
    |(a : ℚ) / 100 - (b : ℚ) / 100| ≤ 5 / 1000 ↔ a = b := by
  constructor
  · intro hle
    by_contra hne
    have h1 : (1 : ℤ) ≤ |a - b| := Int.one_le_abs (sub_ne_zero.mpr hne)
    have h2 : (1 : ℚ) ≤ |(a : ℚ) - (b : ℚ)| := by exact_mod_cast h1
    have h3 : |(a : ℚ) / 100 - (b : ℚ) / 100| = |(a : ℚ) - (b : ℚ)| / 100 := by
      rw [div_sub_div_same, abs_div]
      norm_num
    rw [h3] at hle
    linarith
  · intro h
    subst h
    rw [sub_self, abs_zero]
    norm_num

/-- C1: for an API posting with at least two journal lines, each line
passing `JournalEntry.clean` and referencing an account of the posting
organization, the post succeeds iff |Σdebits − Σcredits| is within the
0.005 currency-unit tolerance (with 2-decimal amounts this coincides with
the source's exact-equality check); on failure neither the Transaction row
nor any JournalEntry row persists, and on success exactly the posted lines
persist. -/
theorem post_transaction_balanced_iff (accountOrg : Nat → Option Nat)
    (org : Nat) (lines : List JLine)
    (hlen : 2 ≤ lines.length)
    (hclean : ∀ l ∈ lines, journalEntryCleanOk l.debit l.credit = true)
    (horg : ∀ l ∈ lines, accountOrg l.account = some org) :
    ((transactionSerializerCreate accountOrg org lines).error = none ↔
      |(linesDebits lines : ℚ) / 100 - (linesCredits lines : ℚ) / 100| ≤ 5 / 1000)
    ∧ ((transactionSerializerCreate accountOrg org lines).error ≠ none →
        (transactionSerializerCreate accountOrg org lines).txPersisted = false
        ∧ (transactionSerializerCreate accountOrg org lines).persistedLines = [])
    ∧ ((transactionSerializerCreate accountOrg org lines).error = none →
        (transactionSerializerCreate accountOrg org lines).txPersisted = true
        ∧ (transactionSerializerCreate accountOrg org lines).persistedLines = lines) := by
  have hdef : transactionSerializerCreate accountOrg org lines =
      if linesDebits lines ≠ linesCredits lines then
        ⟨some (.drf "Debits must equal Credits."), false, []⟩
      else ⟨none, true, lines⟩ := by
    unfold transactionSerializerCreate
    rw [if_neg (by omega)]
    have := createEntriesLoop_valid accountOrg org lines [] hclean horg
    simpa using this
  rw [hdef]
  by_cases hbal : linesDebits lines = linesCredits lines
  · rw [if_neg (by simp [hbal])]
    refine ⟨?_, ?_, ?_⟩
    · constructor
      · intro _
        exact (cents_within_tolerance_iff _ _).mpr hbal
      · intro _
        rfl
    · intro h
      exact absurd rfl h
    · intro _
      exact ⟨rfl, rfl⟩
  · rw [if_pos hbal]
    refine ⟨?_, ?_, ?_⟩
    · constructor
      · intro h
        exact absurd h (by simp)
      · intro htol
        exact absurd ((cents_within_tolerance_iff _ _).mp htol) hbal
    · intro _
      exact ⟨rfl, rfl⟩
    · intro h
      exact absurd h (by simp)

/-- Witness for C1 at a concrete balanced posting. -/
theorem post_transaction_balanced_iff_witness :
    (transactionSerializerCreate (fun _ => some 1) 1
      [{ account := 1, debit := 10000 }, { account := 2, credit := 10000 }]).error
      = none :=
  ((post_transaction_balanced_iff (fun _ => some 1) 1
      [{ account := 1, debit := 10000 }, { account := 2, credit := 10000 }]
      (by decide) (by decide) (by decide)).1).mpr
    (by norm_num [linesDebits, linesCredits])

/-- C2: every journal line with a negative side, both sides positive, or
both sides zero fails `JournalEntry.clean`; but a posting that contains
such a line after a valid one does NOT persist nothing: the Django
`ValidationError` escapes the `except serializers.ValidationError` handler
of `TransactionSerializer.create`, so the Transaction row and the
already-created JournalEntry row stay behind (the atomicity the claim
asserts is violated). -/
theorem invalid_line_fails_clean_but_post_persists_partially (d c : Int)
    (h : d < 0 ∨ c < 0 ∨ (0 < d ∧ 0 < c) ∨ (d = 0 ∧ c = 0)) :
    journalEntryCleanOk d c = false
    ∧ transactionSerializerCreate (fun _ => some 1) 1
        [{ account := 1, debit := 10000 }, { account := 2, debit := -5000 }] =
      { error := some (.django "journal entry clean failed"),
        txPersisted := true,
        persistedLines := [{ account := 1, debit := 10000 }] } := by
  constructor
  · rw [Bool.eq_false_iff]
    intro htrue
    rw [journalEntryCleanOk_iff] at htrue
    rcases h with h | h | h | h <;> omega
  · decide

/-- Witness for C2 at a concrete invalid line (debit −50.00). -/
theorem invalid_line_fails_clean_witness :
    journalEntryCleanOk (-5000) 0 = false :=
  (invalid_line_fails_clean_but_post_persists_partially (-5000) 0
    (Or.inl (by norm_num))).1

/-- A pure-debit journal entry line passes `clean` iff its amount is
positive. -/
theorem journalEntryCleanOkQ_debit (x : ℚ) (hx : 0 < x) :
    journalEntryCleanOkQ x 0 = true := by
  simp [journalEntryCleanOkQ, not_lt.mpr hx.le, hx.ne']

/-- A pure-credit journal entry line passes `clean` iff its amount is
positive. -/
theorem journalEntryCleanOkQ_credit (x : ℚ) (hx : 0 < x) :
    journalEntryCleanOkQ 0 x = true := by
  simp [journalEntryCleanOkQ, not_lt.mpr hx.le, hx.ne']

/-- C4: posting an invoice whose totals satisfy the serializer's own
derivation (`total_amount = subtotal + total_tax`, positive subtotal,
non-negative tax) creates one GL transaction dated at the issue date with
an A/R debit of `total_amount`, a Sales Revenue credit of `subtotal`, and
a Sales Tax Payable credit of `total_tax` exactly when the tax is
positive — 3 entries with tax, 2 without — and Σdebits equals Σcredits
exactly; the spec's concrete example (items (2 × 100.00, tax 20.00) and
(1 × 50.00, tax 0)) yields A/R 270.00, Sales Revenue 250.00,
Sales Tax Payable 20.00. -/
theorem invoice_gl_posting_spec (subtotal totalTax : ℚ) (issueDate : Nat)
    (hs : 0 < subtotal) (ht : 0 ≤ totalTax) :
    (createInvoiceGlTransaction issueDate subtotal totalTax (subtotal + totalTax) =
      .ok ⟨issueDate,
        if totalTax > 0 then
          [{ account := .accountsReceivable, debit := subtotal + totalTax },
           { account := .salesRevenue, credit := subtotal },
           { account := .salesTaxPayable, credit := totalTax }]
        else
          [{ account := .accountsReceivable, debit := subtotal + totalTax },
           { account := .salesRevenue, credit := subtotal }]⟩)
    ∧ (∀ gl, createInvoiceGlTransaction issueDate subtotal totalTax
          (subtotal + totalTax) = .ok gl →
        glDebits gl.entries = glCredits gl.entries
        ∧ gl.entries.length = (if totalTax > 0 then 3 else 2)
        ∧ gl.date = issueDate)
    ∧ invoiceSerializerCreate
        [{ quantity := 2, unitPrice := 100, taxAmount := 20 },
         { quantity := 1, unitPrice := 50, taxAmount := 0 }] .sent issueDate =
      { error := none,
        invoice := some
          { status := .sent,
            transaction := some ⟨issueDate,
              [{ account := .accountsReceivable, debit := 270 },
               { account := .salesRevenue, credit := 250 },
               { account := .salesTaxPayable, credit := 20 }]⟩,
            subtotal := 250, totalTax := 20, totalAmount := 270 },
        glRows := some ⟨issueDate,
          [{ account := .accountsReceivable, debit := 270 },
           { account := .salesRevenue, credit := 250 },
           { account := .salesTaxPayable, credit := 20 }]⟩ } := by
  have htot : (0 : ℚ) < subtotal + totalTax := by linarith
  have hmain : createInvoiceGlTransaction issueDate subtotal totalTax
      (subtotal + totalTax) =
      .ok ⟨issueDate,
        if totalTax > 0 then
          [{ account := .accountsReceivable, debit := subtotal + totalTax },
           { account := .salesRevenue, credit := subtotal },
           { account := .salesTaxPayable, credit := totalTax }]
        else
          [{ account := .accountsReceivable, debit := subtotal + totalTax },
           { account := .salesRevenue, credit := subtotal }]⟩ := by
    unfold createInvoiceGlTransaction
    rw [journalEntryCleanOkQ_debit _ htot, journalEntryCleanOkQ_credit _ hs]
    simp only [Bool.not_true, Bool.false_eq_true, if_false]
    by_cases htx : totalTax > 0
    · rw [if_pos htx]
      have hbal : glDebits
            [{ account := .accountsReceivable, debit := subtotal + totalTax },
             { account := .salesRevenue, credit := subtotal },
             { account := .salesTaxPayable, credit := totalTax }] =
          glCredits
            [{ account := .accountsReceivable, debit := subtotal + totalTax },
             { account := .salesRevenue, credit := subtotal },
             { account := .salesTaxPayable, credit := totalTax }] := by
        simp only [glDebits, glCredits, List.map_cons, List.map_nil,
          List.sum_cons, List.sum_nil]
        ring
      rw [if_neg (fun hne => hne hbal)]
    · have htz : totalTax = 0 := le_antisymm (not_lt.mp htx) ht
      rw [if_neg htx]
      have hbal : glDebits
            [{ account := .accountsReceivable, debit := subtotal + totalTax },
             { account := .salesRevenue, credit := subtotal }] =
          glCredits
            [{ account := .accountsReceivable, debit := subtotal + totalTax },
             { account := .salesRevenue, credit := subtotal }] := by
        simp only [glDebits, glCredits, List.map_cons, List.map_nil,
          List.sum_cons, List.sum_nil, htz]
        ring
      rw [if_neg (fun hne => hne hbal)]
  refine ⟨hmain, ?_, ?_⟩
  · intro gl hgl
    rw [hmain] at hgl
    have hgl' : gl = ⟨issueDate,
        if totalTax > 0 then
          [{ account := .accountsReceivable, debit := subtotal + totalTax },
           { account := .salesRevenue, credit := subtotal },
           { account := .salesTaxPayable, credit := totalTax }]
        else
          [{ account := .accountsReceivable, debit := subtotal + totalTax },
           { account := .salesRevenue, credit := subtotal }]⟩ := by
      cases hgl
      rfl
    subst hgl'
    by_cases htx : totalTax > 0
    · refine ⟨?_, ?_, rfl⟩
      · simp only [if_pos htx, glDebits, glCredits, List.map_cons,
          List.map_nil, List.sum_cons, List.sum_nil]
        ring
      · simp [htx]
    · have htz : totalTax = 0 := le_antisymm (not_lt.mp htx) ht
      refine ⟨?_, ?_, rfl⟩
      · rw [if_neg htx]
        simp only [glDebits, glCredits, List.map_cons, List.map_nil,
          List.sum_cons, List.sum_nil, htz]
        ring
      · simp [htx]
  · norm_num [invoiceSerializerCreate, createInvoiceGlTransaction,
      journalEntryCleanOkQ, glDebits, glCredits]

/-- Witness for C4 at the spec's concrete invoice example. -/
theorem invoice_gl_posting_spec_witness :
    invoiceSerializerCreate
      [{ quantity := 2, unitPrice := 100, taxAmount := 20 },
       { quantity := 1, unitPrice := 50, taxAmount := 0 }] .sent 0 =
    { error := none,
      invoice := some
        { status := .sent,
          transaction := some ⟨0,
            [{ account := .accountsReceivable, debit := 270 },
             { account := .salesRevenue, credit := 250 },
             { account := .salesTaxPayable, credit := 20 }]⟩,
          subtotal := 250, totalTax := 20, totalAmount := 270 },
      glRows := some ⟨0,
        [{ account := .accountsReceivable, debit := 270 },
         { account := .salesRevenue, credit := 250 },
         { account := .salesTaxPayable, credit := 20 }]⟩ } :=
  (invoice_gl_posting_spec 250 20 0 (by norm_num) (by norm_num)).2.2

/-- C5 counterexample: an invoice updated DRAFT→SENT whose derived GL
transaction is unbalanced (items 1 × 100.00 with tax −20.00, so debits
80.00 against credits 100.00) produces a SUCCESSFUL update — no error —
that leaves the invoice persisted in status SENT with no linked GL
transaction, refuting "the whole invoice creation or update fails, so the
invoice is never persisted in status SENT without its GL posting". -/
theorem invoice_update_swallows_gl_failure :
    invoiceSerializerUpdate .draft .sent none
      [{ quantity := 1, unitPrice := 100, taxAmount := -20 }] 0 =
    { error := none,
      invoice := { status := .sent, transaction := none, subtotal := 100,
                   totalTax := -20, totalAmount := 80 },
      glRows := none } := by
  norm_num [invoiceSerializerUpdate, createInvoiceGlTransaction,
    journalEntryCleanOkQ, glDebits, glCredits]

/-- C5 amended: when the derived GL transaction is unbalanced, the
just-created GL Transaction is always deleted; invoice CREATION fails as a
whole (no invoice row persists), but an invoice UPDATE from DRAFT to SENT
succeeds anyway — the failure is only logged — leaving the invoice
persisted in status SENT without a GL posting. -/
theorem invoice_gl_mismatch_create_fails_update_passes
    (items : List InvItemInput) (d : Nat)
    (h : createInvoiceGlTransaction d
        ((items.map fun i => i.quantity * i.unitPrice).sum)
        ((items.map (·.taxAmount)).sum)
        ((items.map fun i => i.quantity * i.unitPrice).sum +
          (items.map (·.taxAmount)).sum) = .unbalanced) :
    invoiceSerializerCreate items .sent d =
      { error := some
          (.drf "Failed to create a balanced GL transaction for the invoice."),
        invoice := none, glRows := none }
    ∧ invoiceSerializerUpdate .draft .sent none items d =
      { error := none,
        invoice :=
          { status := .sent, transaction := none,
            subtotal := (items.map fun i => i.quantity * i.unitPrice).sum,
            totalTax := (items.map (·.taxAmount)).sum,
            totalAmount := (items.map fun i => i.quantity * i.unitPrice).sum +
              (items.map (·.taxAmount)).sum },
        glRows := none } := by
  constructor
  · simp only [invoiceSerializerCreate, h]
    simp
  · simp only [invoiceSerializerUpdate, h]
    simp

/-- Witness for the amended C5 at the concrete negative-tax input. -/
theorem invoice_gl_mismatch_witness :
    invoiceSerializerCreate
      [{ quantity := 1, unitPrice := 100, taxAmount := -20 }] .sent 0 =
    { error := some
        (.drf "Failed to create a balanced GL transaction for the invoice."),
      invoice := none, glRows := none } :=
  (invoice_gl_mismatch_create_fails_update_passes
    [{ quantity := 1, unitPrice := 100, taxAmount := -20 }] 0
    (by norm_num [createInvoiceGlTransaction, journalEntryCleanOkQ,
      glDebits, glCredits])).1

/-- C8: `get_or_create_default_account` is idempotent — whenever a call
succeeds with account `a1` and resulting table `s1`, an identical second
call returns the same account and leaves the table untouched — and in the
zero-match case (no active exact-name match, no active substring match) it
creates exactly one account with name = defaultName, the given type,
the auto-created description, and active = true. -/
theorem resolve_or_create_idempotent (s : AcctState) (org : Nat)
    (orgName : String) (t : AccountType) (substr defaultName suffix : String)
    (a1 : AccountRec) (s1 : AcctState)
    (h : getOrCreateDefaultAccount s org orgName t substr defaultName suffix =
      .ok (a1, s1)) :
    getOrCreateDefaultAccount s1 org orgName t substr defaultName suffix =
      .ok (a1, s1)
    ∧ (exactNameMatches s org t defaultName = [] →
        substrMatches s org t substr = [] →
        a1 = { id := s.nextId, org := org, name := defaultName, type := t,
               active := true,
               description :=
                 s!"Default {suffix} for {orgName}. Auto-created." }
        ∧ s1.accounts = s.accounts ++ [a1]
        ∧ (s1.accounts.filter fun a =>
            a.org = org ∧ a.name = defaultName ∧ a.type = t).length = 1) := by
  unfold getOrCreateDefaultAccount at h ⊢
  rcases hE : exactNameMatches s org t defaultName with _ | ⟨a, rest⟩
  · rw [hE] at h
    rcases hS : substrMatches s org t substr with _ | ⟨b, brest⟩
    · rw [hS] at h
      simp only at h
      by_cases hAny : s.accounts.any (fun a =>
          decide (a.org = org ∧ a.name = defaultName ∧ a.type = t)) = true
      · rw [if_pos hAny] at h
        cases h
      · rw [if_neg hAny] at h
        injection h with hpair
        injection hpair with hA hS
        subst hA
        subst hS
        constructor
        · have hE1 : exactNameMatches
              (AcctState.mk
                (s.accounts ++ [AccountRec.mk s.nextId org defaultName t true
                  (s!"Default {suffix} for {orgName}. Auto-created.")])
                (s.nextId + 1)) org t defaultName =
              [AccountRec.mk s.nextId org defaultName t true
                (s!"Default {suffix} for {orgName}. Auto-created.")] := by
            unfold exactNameMatches at hE ⊢
            simp only [List.filter_append, hE]
            simp
          rw [hE1]
        · intro _ _
          refine ⟨rfl, rfl, ?_⟩
          simp only [List.filter_append]
          have hnil : s.accounts.filter (fun a =>
              decide (a.org = org ∧ a.name = defaultName ∧ a.type = t)) = [] := by
            rw [List.filter_eq_nil_iff]
            intro x hx
            intro hpx
            exact hAny (List.any_eq_true.mpr ⟨x, hx, hpx⟩)
          rw [hnil]
          simp
    · rw [hS] at h
      rcases brest with _ | ⟨b2, b2rest⟩
      · simp only [Except.ok.injEq, Prod.mk.injEq] at h
        obtain ⟨ha1, hs1⟩ := h
        subst ha1
        subst hs1
        constructor
        · rw [hE, hS]
        · intro _ h2
          exact absurd h2 (List.cons_ne_nil _ _)
      · simp only [Except.ok.injEq, Prod.mk.injEq] at h
        obtain ⟨ha1, hs1⟩ := h
        subst ha1
        subst hs1
        constructor
        · rw [hE, hS]
        · intro _ h2
          exact absurd h2 (List.cons_ne_nil _ _)
  · rw [hE] at h
    rcases rest with _ | ⟨a2, arest⟩
    · simp only [Except.ok.injEq, Prod.mk.injEq] at h
      obtain ⟨ha1, hs1⟩ := h
      subst ha1
      subst hs1
      constructor
      · rw [hE]
      · intro h1 _
        exact absurd h1 (List.cons_ne_nil _ _)
    · simp only [Except.ok.injEq, Prod.mk.injEq] at h
      obtain ⟨ha1, hs1⟩ := h
      subst ha1
      subst hs1
      constructor
      · rw [hE]
      · intro h1 _
        exact absurd h1 (List.cons_ne_nil _ _)

/-- Witness for C8: resolving against an empty table creates the default
account, and the created account is what the claim describes. -/
theorem resolve_or_create_idempotent_witness :
    getOrCreateDefaultAccount ⟨[], 0⟩ 1 "Acme" .asset "accounts receivable"
      "Accounts Receivable (Default)" "accounts receivable" =
      .ok ({ id := 0, org := 1, name := "Accounts Receivable (Default)",
             type := .asset, active := true,
             description := "Default accounts receivable for Acme. Auto-created." },
           ⟨[{ id := 0, org := 1, name := "Accounts Receivable (Default)",
               type := .asset, active := true,
               description := "Default accounts receivable for Acme. Auto-created." }],
             1⟩)
    ∧ getOrCreateDefaultAccount
        ⟨[{ id := 0, org := 1, name := "Accounts Receivable (Default)",
            type := .asset, active := true,
            description := "Default accounts receivable for Acme. Auto-created." }],
          1⟩ 1 "Acme" .asset "accounts receivable"
        "Accounts Receivable (Default)" "accounts receivable" =
      .ok ({ id := 0, org := 1, name := "Accounts Receivable (Default)",
             type := .asset, active := true,
             description := "Default accounts receivable for Acme. Auto-created." },
           ⟨[{ id := 0, org := 1, name := "Accounts Receivable (Default)",
               type := .asset, active := true,
               description := "Default accounts receivable for Acme. Auto-created." }],
             1⟩) := by
  have hfirst : getOrCreateDefaultAccount ⟨[], 0⟩ 1 "Acme" .asset
      "accounts receivable" "Accounts Receivable (Default)"
      "accounts receivable" =
      .ok ({ id := 0, org := 1, name := "Accounts Receivable (Default)",
             type := .asset, active := true,
             description := "Default accounts receivable for Acme. Auto-created." },
           ⟨[{ id := 0, org := 1, name := "Accounts Receivable (Default)",
               type := .asset, active := true,
               description := "Default accounts receivable for Acme. Auto-created." }],
             1⟩) := by rfl
  exact ⟨hfirst,
    (resolve_or_create_idempotent ⟨[], 0⟩ 1 "Acme" .asset "accounts receivable"
      "Accounts Receivable (Default)" "accounts receivable" _ _ hfirst).1⟩

/-- The inner break-on-first-match loop equals the `List.find?`-style
first-match step. -/
theorem applyFirstMatchingRule_eq_firstMatchStep (accounts : List AccountRec)
    (tx : StagedTx) :
    ∀ rules : List RuleRec,
      applyFirstMatchingRule accounts tx rules = firstMatchStep accounts rules tx := by
  intro rules
  induction rules with
  | nil => rfl
  | cons r rs ih =>
    unfold applyFirstMatchingRule firstMatchStep
    rw [List.find?_cons]
    by_cases hc : checkRuleConditions tx r
    · simp [hc]
    · simp only [hc, Bool.false_eq_true, if_false, cond_false]
      exact ih

/-- The outer loops agree transaction by transaction. -/
theorem runReconLoop_eq_decl (accounts : List AccountRec) (rules : List RuleRec)
    (org : Nat) :
    ∀ (txs : List StagedTx) (budget : Nat),
      runReconLoop accounts rules org txs budget =
        runReconDeclLoop accounts rules org txs budget := by
  intro txs
  induction txs with
  | nil => intro budget; rfl
  | cons tx rest ih =>
    intro budget
    unfold runReconLoop runReconDeclLoop
    rw [applyFirstMatchingRule_eq_firstMatchStep, ih, ih]

/-- C7 amended: `run_reconciliation_rules_for_organization` evaluates only
UNMATCHED staged transactions of the organization, at most 100 per call,
against the active rules ordered by priority ascending with ties kept in
database order (NOT ordered by name); per transaction it applies exactly
the first rule whose conditions all pass, and it returns the count of
transactions that had a rule applied — formally, the source loop equals
the declarative `find?`-based program over the priority-sorted rules. -/
theorem run_rules_first_match_by_priority (s : ReconState) (org : Nat) :
    runReconciliationRulesForOrganization s org = runReconDeclarative s org := by
  unfold runReconciliationRulesForOrganization runReconDeclarative
  exact runReconLoop_eq_decl _ _ _ _ _

/-- C7 counterexample: two active rules share priority 0; the rule named
"B" was inserted (loaded) before the rule named "A", and both match the
single staged transaction.  The source, which orders by `priority` only,
applies rule "B" (id 2); ordering "by priority ascending, then name" as
the claim states would apply rule "A" (id 3) — so the claim's ordering is
refuted at this input. -/
theorem run_rules_name_order_refuted :
    (runReconciliationRulesForOrganization
      ⟨[⟨2, 1, "B", 0, true,
          [⟨some "name", some "equals", .str "x"⟩],
          [⟨some "categorize", some 1⟩]⟩,
        ⟨3, 1, "A", 0, true,
          [⟨some "name", some "equals", .str "x"⟩],
          [⟨some "categorize", some 1⟩]⟩],
        [⟨5, 1, "x", 0, none, .unmatched, none⟩],
        [⟨1, 1, "Checking", .asset, true, ""⟩]⟩ 1).2.map (·.appliedRule)
      = [some 2]
    ∧ (runReconciliationRulesClaimed
      ⟨[⟨2, 1, "B", 0, true,
          [⟨some "name", some "equals", .str "x"⟩],
          [⟨some "categorize", some 1⟩]⟩,
        ⟨3, 1, "A", 0, true,
          [⟨some "name", some "equals", .str "x"⟩],
          [⟨some "categorize", some 1⟩]⟩],
        [⟨5, 1, "x", 0, none, .unmatched, none⟩],
        [⟨1, 1, "Checking", .asset, true, ""⟩]⟩ 1).2.map (·.appliedRule)
      = [some 3] := by
  constructor
  · rfl
  · rfl

/-- C10: in `process_pay_run`, when the first input row that resolves an
active employee of the organization has `hours_worked` absent, the
`update_or_create` defaults expression reads the loop-local variables
`payslip`/`created` before any assignment, so the whole call raises
`UnboundLocalError` (and the pay run cannot complete); on any later row
the same expression silently reads the previous iteration's payslip and
created flag instead. -/
theorem process_pay_run_unbound_local (st : PayrollState) (payRun : PayRunRec)
    (pre post : List EmpInput) (row : EmpInput)
    (hstatus : payRun.status = .draft ∨ payRun.status = .processing)
    (hpre : ∀ i ∈ pre, resolveEmployee st.employees payRun.org i = none)
    (hrow : (resolveEmployee st.employees payRun.org row).isSome = true)
    (hhours : row.hoursWorked = none) :
    processPayRun st payRun (pre ++ row :: post) = .error .unboundLocalError
    ∧ (∀ (p : PayslipRec) (c : Bool),
        payslipNotesDefault none (some (p, c)) =
          .ok (if !c then p.notes else "")) := by
  constructor
  · have hskip : ∀ (l : List EmpInput) (acc : PayLoopAcc),
        (∀ i ∈ l, resolveEmployee st.employees payRun.org i = none) →
        payRunEmployeeLoop st payRun (l ++ row :: post) acc =
          payRunEmployeeLoop st payRun (row :: post) acc := by
      intro l
      induction l with
      | nil => intro acc _; rfl
      | cons i il ih =>
        intro acc hl
        have hi : resolveEmployee st.employees payRun.org i = none :=
          hl i (by simp)
        rw [List.cons_append]
        show payRunEmployeeLoop st payRun (i :: (il ++ row :: post)) acc = _
        unfold payRunEmployeeLoop
        rw [hi]
        exact ih acc fun x hx => hl x (by simp [hx])
    obtain ⟨emp, hemp⟩ := Option.isSome_iff_exists.mp hrow
    unfold processPayRun
    rw [if_neg (not_not_intro hstatus)]
    rw [hskip pre _ hpre]
    unfold payRunEmployeeLoop
    rw [hemp, hhours]
    rfl
  · intro p c
    rfl

/-- Witness for C10: an unresolvable first row followed by a salaried
employee's row with no `hours_worked` makes the whole call fail with
`UnboundLocalError`. -/
theorem process_pay_run_unbound_local_witness :
    processPayRun
      { employees := [{ id := 7, org := 1, active := true,
                        payType := .salary, payRate := 5200000 }],
        dedTypes := [], payslips := [] }
      { org := 1, periodStart := 0, periodEnd := 14, paymentDate := 20,
        status := .draft }
      ([{ employeeId := some 99, hoursWorked := none }] ++
        { employeeId := some 7, hoursWorked := none } :: []) =
      .error .unboundLocalError :=
  (process_pay_run_unbound_local
    { employees := [{ id := 7, org := 1, active := true,
                      payType := .salary, payRate := 5200000 }],
      dedTypes := [], payslips := [] }
    { org := 1, periodStart := 0, periodEnd := 14, paymentDate := 20,
      status := .draft }
    [{ employeeId := some 99, hoursWorked := none }] []
    { employeeId := some 7, hoursWorked := none }
    (Or.inl rfl) (by decide) (by rfl) rfl).1

end LedgerPro
